import Mathlib

/-!
Shallow embedding of `src/log_parser.py` (SistlaS/LogParser).

The program is a log-template extraction pipeline:
  * `extract_template_and_variables` / `extract_template_and_variables_fewshot`
    build a prompt, call the external chat-completion service, strip the raw
    response and `json.loads` it, converting a `json.JSONDecodeError` into the
    sentinel record `{"template": "<PARSE_ERROR>", "variables": {}, "error": str(e)}`.
  * `normalize_template` is `re.sub(r"<[^>]+>", "<*>", template.strip())`.
  * `get_embedding` calls the external embedding service with the single-item
    batch `[text]` and returns `response.data[0].embedding`.
  * `main` loops over sample logs, extracting and (when `"template" in result`)
    embedding the normalized template.

External effects are embedded explicitly: the chat-completion call, the JSON
decoder (`json.loads`) and the embedding call are passed in as functions whose
`Except.error` case models a raised Python exception; all exceptions are
modelled by their message strings.  Numeric embedding payloads are carried by a
type parameter `α`, since the program only passes them through unmodified.
-/

/-- Python values produced by `json.loads`: `None`, `bool`, numbers, `str`,
`list` and `dict` (a `dict` is a key/value association list; keys produced by
the JSON decoder are unique). Numeric payloads are opaque to this program, so
they are carried as `Int`. -/
inductive Json where
  | null : Json
  | bool : Bool → Json
  | num : Int → Json
  | str : String → Json
  | arr : List Json → Json
  | obj : List (String × Json) → Json

/-- ASCII whitespace stripped by Python's `str.strip()` (the program only ever
strips model output and templates, for which the ASCII fragment is the
relevant one). -/
def isPySpace (c : Char) : Bool :=
  c = ' ' || c = '\t' || c = '\n' || c = '\r' || c = '\x0b' || c = '\x0c'

/-- Python `str.strip()` on a character list: drop whitespace from the front,
then from the back. -/
def pyStrip (l : List Char) : List Char :=
  ((l.dropWhile isPySpace).reverse.dropWhile isPySpace).reverse

/-- Python `str.strip()` at the `String` level. -/
def pyStripStr (s : String) : String :=
  (pyStrip s.data).asString

/-- One left-to-right pass implementing `re.sub(r"<[^>]+>", "<*>", s)`:
`none` state means no `<` is pending; `some p` means a `<` has been read and
`p` holds the non-`>` characters seen since.  A pending `<` closed by `>`
after at least one character is a match of `<[^>]+>` and is emitted as `<*>`;
an immediately closed `<>` has an empty `[^>]+` and is emitted verbatim; a
pending `<` never closed (no later `>`) matches nothing and is flushed
verbatim at the end.  This is exactly the non-overlapping leftmost matching
of the regex, since `<` and every further character up to the first `>` are
all in `[^>]`. -/
def normScan : Option (List Char) → List Char → List Char
  | none, [] => []
  | some p, [] => '<' :: p
  | none, c :: cs =>
      if c = '<' then normScan (some []) cs
      else c :: normScan none cs
  | some p, c :: cs =>
      if c = '>' then
        if p = [] then '<' :: '>' :: normScan none cs
        else '<' :: '*' :: '>' :: normScan none cs
      else normScan (some (p ++ [c])) cs

/-- Embedding of `normalize_template`: replace all placeholders of the
stripped template with the uniform token. -/
def normalize_template (template : String) : String :=
  (normScan none (pyStrip template.data)).asString

/-- The sentinel record
`{"template": "<PARSE_ERROR>", "variables": {}, "error": str(e)}` returned by
both extractors when `json.loads` raises (the spec's `parseError` field is the
`"error"` key of this record). -/
def parse_error_record (e : String) : Json :=
  Json.obj [("template", Json.str "<PARSE_ERROR>"),
            ("variables", Json.obj []),
            ("error", Json.str e)]

/-- The zero-shot prompt f-string of `extract_template_and_variables`. -/
def zero_shot_prompt (log_line : String) : String :=
  "\n    You are a log parser. For the given log line:\n    1. Identify a generalized log template by replacing variable parts (timestamp, usernames, IPs, IDs, numbers, etc.) with clearly typed placeholders like <TIMESTAMP>, <USERNAME>, <IP_ADDRESS>.\n    2. Extract the values of those variables in a JSON dictionary.\n    3. Output the JSON object with two fields: \"template\" and \"variables\".\n\n    Log Line: "
    ++ log_line ++ "\n    "

/-- The few-shot prompt f-string of `extract_template_and_variables_fewshot`. -/
def few_shot_prompt (log_line few_shot_examples : String) : String :=
  "\n    You are a log parser. For the given log line:\n    1. Identify a generalized log template by replacing variable parts (timestamp, usernames, IPs, IDs, numbers, etc.) with clearly typed placeholders like <TIMESTAMP>, <USERNAME>, <IP_ADDRESS>.\n    2. Extract the values of those variables in a JSON dictionary.\n    3. Output the JSON object with two fields: \"template\", \"variables\", \"original_log\".\n\n    If possible, make use of the examples to improve accuracy:\n\n    "
    ++ few_shot_examples
    ++ "\n\n    Now process the following:\n\n    Log Line: " ++ log_line ++ "\n    "

/-- Zero-shot extractor.  `completion` models
`client.chat.completions.create(...).choices[0].message.content` (an
`Except.error` is a raised exception — note the call sits outside the
`try`), `json_loads` models `json.loads` (an `Except.error` is a
`json.JSONDecodeError`, caught by the `except` and converted into the
sentinel record). -/
def extract_template_and_variables
    (completion : String → Except String String)
    (json_loads : String → Except String Json)
    (log_line : String) : Except String Json :=
  match completion (zero_shot_prompt log_line) with
  | Except.error e => Except.error e
  | Except.ok raw =>
      let content := pyStripStr raw
      match json_loads content with
      | Except.ok v => Except.ok v
      | Except.error e => Except.ok (parse_error_record e)

/-- Few-shot extractor; identical post-processing of the raw response (the
`print` of the raw model output has no bearing on the returned value). -/
def extract_template_and_variables_fewshot
    (completion : String → Except String String)
    (json_loads : String → Except String Json)
    (log_line : String) (few_shot_examples : String) : Except String Json :=
  match completion (few_shot_prompt log_line few_shot_examples) with
  | Except.error e => Except.error e
  | Except.ok raw =>
      let content := pyStripStr raw
      match json_loads content with
      | Except.ok v => Except.ok v
      | Except.error e => Except.ok (parse_error_record e)

/-- Embedding of `get_embedding`: `embeddings_create` models
`client.embeddings.create(model=..., input=[text]).data` as the list of
returned vectors (an `Except.error` is a raised exception).  `data[0]` on an
empty list raises `IndexError`. -/
def get_embedding {α : Type}
    (embeddings_create : List String → Except String (List (List α)))
    (text : String) : Except String (List α) :=
  match embeddings_create [text] with
  | Except.error e => Except.error e
  | Except.ok data =>
      match data with
      | [] => Except.error "IndexError: list index out of range"
      | v :: _ => Except.ok v

/-- Character-list test for `needle` being a prefix of `haystack` (used for
Python's substring `in`). -/
def charsPrefix : List Char → List Char → Bool
  | [], _ => true
  | _ :: _, [] => false
  | a :: as, b :: bs => a = b && charsPrefix as bs

/-- Character-list substring test (Python `needle in haystack` on `str`). -/
def charsContain (needle : List Char) : List Char → Bool
  | [] => needle.isEmpty
  | b :: bs => charsPrefix needle (b :: bs) || charsContain needle bs

/-- Python `key in result` for a decoded JSON value: key membership on a
`dict`, element equality on a `list` (a string key can only equal `str`
elements), substring test on a `str`, and a `TypeError` on the remaining
types. -/
def py_contains (j : Json) (k : String) : Except String Bool :=
  match j with
  | Json.obj kvs => Except.ok (kvs.any fun kv => kv.1 = k)
  | Json.arr xs =>
      Except.ok (xs.any fun x =>
        match x with
        | Json.str s => s = k
        | _ => false)
  | Json.str s => Except.ok (charsContain k.data s.data)
  | _ => Except.error "TypeError: argument of type is not iterable"

/-- Python `result[key]` with a string key: `dict` lookup (`KeyError` when
absent), `TypeError` on every other type. -/
def py_getitem (j : Json) (k : String) : Except String Json :=
  match j with
  | Json.obj kvs =>
      match kvs.lookup k with
      | some v => Except.ok v
      | none => Except.error ("KeyError: " ++ k)
  | _ => Except.error "TypeError: indices must be integers"

/-- Python `template.strip()` inside `normalize_template` requires a `str`
argument; any other JSON value raises an `AttributeError`. -/
def py_as_str : Json → Except String String
  | Json.str s => Except.ok s
  | _ => Except.error "AttributeError: object has no attribute strip"

/-- The `FEW_SHOT_EXAMPLES` constant of the program. -/
def FEW_SHOT_EXAMPLES : String :=
  "\nExample 1:\nLog Line:\n2023-01-01 10:23:45 User alice logged in from 192.168.1.1\n\x7b\"template\": \"<TIMESTAMP> User <USERNAME> logged in from <IP_ADDRESS>\",\n \"variables\": \x7b\n   \"TIMESTAMP\": \"2023-01-01 10:23:45\",\n   \"USERNAME\": \"alice\",\n   \"IP_ADDRESS\": \"192.168.1.1\"\n \x7d\x7d\n\nExample 2:\nLog Line:\nError: failed to connect to database db42 on host 10.0.0.2\n\x7b\"template\": \"Error: failed to connect to database <DB_NAME> on host <IP_ADDRESS>\",\n \"variables\": \x7b\n   \"DB_NAME\": \"db42\",\n   \"IP_ADDRESS\": \"10.0.0.2\"\n \x7d\x7d\n"

/-- The three external calls `main` depends on, passed explicitly. -/
structure Oracles (α : Type) where
  completion : String → Except String String
  json_loads : String → Except String Json
  embeddings_create : List String → Except String (List (List α))

/-- The body of `main`'s loop for a single log line: few-shot extraction, then
`if "template" in result:` embed the normalized template.  Any uncaught
exception (modelled as `Except.error`) aborts the iteration. -/
def process_log {α : Type} (o : Oracles α) (log : String) :
    Except String (Json × Option (List α)) :=
  match extract_template_and_variables_fewshot o.completion o.json_loads log FEW_SHOT_EXAMPLES with
  | Except.error e => Except.error e
  | Except.ok result =>
      match py_contains result "template" with
      | Except.error e => Except.error e
      | Except.ok hasTemplate =>
          if hasTemplate then
            match py_getitem result "template" with
            | Except.error e => Except.error e
            | Except.ok tj =>
                match py_as_str tj with
                | Except.error e => Except.error e
                | Except.ok ts =>
                    match get_embedding o.embeddings_create (normalize_template ts) with
                    | Except.error e => Except.error e
                    | Except.ok embedding => Except.ok (result, some embedding)
          else Except.ok (result, none)

/-- The `for log in logs:` loop of `main`: per-line results accumulate in
order; an uncaught exception stops the loop and propagates (second component),
discarding no already-produced results. -/
def run_logs {α : Type} (o : Oracles α) :
    List String → List (Json × Option (List α)) × Option String
  | [] => ([], none)
  | log :: rest =>
      match process_log o log with
      | Except.error e => ([], some e)
      | Except.ok r => (r :: (run_logs o rest).1, (run_logs o rest).2)

/-- The sample logs of `main`. -/
def sample_logs : List String :=
  ["2024-03-12 12:43:22,934 - user john_doe logged in from 192.168.1.1",
   "081109 203615 148 INFO dfs.DataNode$PacketResponder: PacketResponder 1 for block blk_38865049064139660 terminating",
   "BLOCK* NameSystem.addStoredBlock: blockMap updated: 10.251.73.220:50010 is added to blk_7128370237687728475 size 67108864",
   "Jun 14 15:16:01 combo sshd(pam_unix)[19939]: authentication failure; logname= uid=0 euid=0 tty=NODEVssh ruser= rhost=218.188.2.4",
   "17/06/09 20:10:40 INFO executor.CoarseGrainedExecutorBackend: Registered signal handlers for [TERM, HUP, INT]",
   "17/06/09 20:10:40 INFO spark.SecurityManager: Changing view acls to: yarn,curi",
   "Error: failed to connect to database worker64 on host 10.1.4.2"]

/-- The `main` entry point over the sample logs (Lean reserves the name
`main` for executables, hence the suffix). -/
def main_run {α : Type} (o : Oracles α) : List (Json × Option (List α)) × Option String :=
  run_logs o sample_logs

/-- A substring of the shape matched by the pattern `<[^>]+>`: a `<`, one or
more non-`>` characters, and the first following `>`. -/
def HasPlaceholder (l : List Char) : Prop :=
  ∃ p m q, l = p ++ '<' :: (m ++ '>' :: q) ∧ m ≠ [] ∧ '>' ∉ m

/-! Helper lemmas about `normScan` and `pyStrip`. -/

theorem normScan_some_no_gt : ∀ (cs p : List Char), '>' ∉ cs → normScan (some p) cs = '<' :: (p ++ cs)
  | [], p, _ => by simp [normScan]
  | c :: cs, p, h => by
    have hc : ¬ c = '>' := fun hh => h (hh ▸ List.mem_cons_self c cs)
    have hcs : '>' ∉ cs := fun hh => h (List.mem_cons_of_mem c hh)
    simp [normScan, hc, normScan_some_no_gt cs (p ++ [c]) hcs]

theorem normScan_none_no_gt : ∀ l : List Char, '>' ∉ l → normScan none l = l
  | [], _ => rfl
  | c :: cs, h => by
    have hcs : '>' ∉ cs := fun hh => h (List.mem_cons_of_mem c hh)
    by_cases hc : c = '<'
    · subst hc
      simp [normScan, normScan_some_no_gt cs [] hcs]
    · simp [normScan, hc, normScan_none_no_gt cs hcs]

theorem normScan_some_gt : ∀ (mid p rest : List Char), '>' ∉ mid →
    normScan (some p) (mid ++ '>' :: rest) =
      (if p ++ mid = [] then ['<', '>'] else ['<', '*', '>']) ++ normScan none rest
  | [], p, rest, _ => by
    by_cases hp : p = [] <;> simp [normScan, hp]
  | c :: mid, p, rest, h => by
    have hc : ¬ c = '>' := fun hh => h (hh ▸ List.mem_cons_self c mid)
    have hmid : '>' ∉ mid := fun hh => h (List.mem_cons_of_mem c hh)
    have hrec := normScan_some_gt mid (p ++ [c]) rest hmid
    simp only [List.cons_append, normScan, if_neg hc, List.append_eq]
    rw [hrec]
    simp

theorem exists_first_gt : ∀ l : List Char, '>' ∈ l → ∃ mid rest, l = mid ++ '>' :: rest ∧ '>' ∉ mid
  | c :: cs, h => by
    by_cases hc : c = '>'
    · exact ⟨[], cs, by simp [hc], by simp⟩
    · have hcs : '>' ∈ cs := by
        rcases List.mem_cons.mp h with h1 | h1
        · exact absurd h1.symm hc
        · exact h1
      obtain ⟨mid, rest, heq, hmid⟩ := exists_first_gt cs hcs
      refine ⟨c :: mid, rest, by simp [heq], ?_⟩
      intro hin
      rcases List.mem_cons.mp hin with h1 | h1
      · exact hc h1.symm
      · exact hmid h1

theorem normScan_some_head? : ∀ (cs p : List Char), (normScan (some p) cs).head? = some '<'
  | [], p => rfl
  | c :: cs, p => by
    by_cases hc : c = '>'
    · by_cases hp : p = [] <;> simp [normScan, hc, hp]
    · simp [normScan, hc, normScan_some_head? cs (p ++ [c])]

theorem normScan_none_head? : ∀ l : List Char, (normScan none l).head? = l.head?
  | [] => rfl
  | c :: cs => by
    by_cases hc : c = '<'
    · subst hc; simp [normScan, normScan_some_head? cs []]
    · simp [normScan, hc]

theorem normScan_none_ne_nil {l : List Char} (h : l ≠ []) : normScan none l ≠ [] := by
  intro hcontra
  have h1 := normScan_none_head? l
  rw [hcontra] at h1
  cases l with
  | nil => exact h rfl
  | cons a as => simp at h1

theorem getLast?_cons_right {c : Char} {cs : List Char} (h : cs ≠ []) :
    (c :: cs).getLast? = cs.getLast? := by
  have heq : c :: cs = [c] ++ cs := rfl
  rw [heq, List.getLast?_append_of_ne_nil _ h]

theorem getLast?_reverse' (l : List Char) : l.reverse.getLast? = l.head? := by
  cases l with
  | nil => rfl
  | cons a l =>
    rw [List.reverse_cons, List.getLast?_append_cons]
    rfl

theorem head?_reverse' (l : List Char) : l.reverse.head? = l.getLast? := by
  conv_rhs => rw [← List.reverse_reverse l, getLast?_reverse']

theorem normScan_cons_lt (cs : List Char) : normScan none ('<' :: cs) = normScan (some []) cs := by
  simp [normScan]

theorem normScan_none_getLast? : ∀ (n : Nat) (l : List Char), l.length ≤ n →
    (normScan none l).getLast? = l.getLast? ∨ (normScan none l).getLast? = some '>' := by
  intro n
  induction n with
  | zero =>
    intro l hl
    have hnil : l = [] := List.length_eq_zero.mp (Nat.le_zero.mp hl)
    subst hnil; left; rfl
  | succ n ih =>
    intro l hl
    match l with
    | [] => left; rfl
    | c :: cs =>
      by_cases hc : c = '<'
      · subst hc
        by_cases hgt : '>' ∈ cs
        · obtain ⟨mid, rest, heq, hmid⟩ := exists_first_gt cs hgt
          subst heq
          have hlen : rest.length ≤ n := by
            simp only [List.length_cons, List.length_append] at hl ⊢
            omega
          rw [normScan_cons_lt, normScan_some_gt mid [] rest hmid]
          rcases Classical.em (rest = []) with hr | hr
          · subst hr
            right
            by_cases hm : mid = [] <;> simp [hm, normScan]
          · have hne : normScan none rest ≠ [] := normScan_none_ne_nil hr
            rw [List.getLast?_append_of_ne_nil _ hne]
            have hl2 : ('<' :: (mid ++ '>' :: rest)).getLast? = rest.getLast? := by
              rw [getLast?_cons_right (by simp), List.getLast?_append_cons,
                  getLast?_cons_right hr]
            rw [hl2]
            exact ih rest hlen
        · left
          rw [normScan_none_no_gt ('<' :: cs) (by
            intro hin
            rcases List.mem_cons.mp hin with h1 | h1
            · exact absurd h1 (by decide)
            · exact hgt h1)]
      · have hscan : normScan none (c :: cs) = c :: normScan none cs := by
          simp [normScan, hc]
        rw [hscan]
        rcases Classical.em (cs = []) with hcs | hcs
        · subst hcs; left; rfl
        · have hne : normScan none cs ≠ [] := normScan_none_ne_nil hcs
          rw [getLast?_cons_right hne, getLast?_cons_right hcs]
          exact ih cs (by simp only [List.length_cons] at hl; omega)

theorem normScan_none_idem_aux : ∀ (n : Nat) (l : List Char), l.length ≤ n →
    normScan none (normScan none l) = normScan none l := by
  intro n
  induction n with
  | zero =>
    intro l hl
    have hnil : l = [] := List.length_eq_zero.mp (Nat.le_zero.mp hl)
    subst hnil; rfl
  | succ n ih =>
    intro l hl
    match l with
    | [] => rfl
    | c :: cs =>
      by_cases hc : c = '<'
      · subst hc
        by_cases hgt : '>' ∈ cs
        · obtain ⟨mid, rest, heq, hmid⟩ := exists_first_gt cs hgt
          subst heq
          have hlen : rest.length ≤ n := by
            simp only [List.length_cons, List.length_append] at hl ⊢
            omega
          rw [normScan_cons_lt, normScan_some_gt mid [] rest hmid]
          by_cases hm : mid = []
          · subst hm
            rw [show (if ([] : List Char) ++ [] = [] then (['<', '>'] : List Char)
                  else ['<', '*', '>']) = ['<', '>'] from rfl]
            rw [show (['<', '>'] : List Char) ++ normScan none rest
                  = '<' :: '>' :: normScan none rest from rfl,
                normScan_cons_lt,
                show ('>' : Char) :: normScan none rest
                  = ([] : List Char) ++ '>' :: normScan none rest from rfl,
                normScan_some_gt [] [] (normScan none rest) (by simp),
                ih rest hlen]
            rfl
          · have hne : ¬ (([] : List Char) ++ mid = []) := by simpa using hm
            rw [if_neg hne]
            rw [show (['<', '*', '>'] : List Char) ++ normScan none rest
                  = '<' :: '*' :: '>' :: normScan none rest from rfl,
                normScan_cons_lt,
                show ('*' : Char) :: '>' :: normScan none rest
                  = ['*'] ++ '>' :: normScan none rest from rfl,
                normScan_some_gt ['*'] [] (normScan none rest) (by simp),
                ih rest hlen]
            rfl
        · have hng : '>' ∉ '<' :: cs := by
            intro hin
            rcases List.mem_cons.mp hin with h1 | h1
            · exact absurd h1 (by decide)
            · exact hgt h1
          rw [normScan_none_no_gt ('<' :: cs) hng, normScan_none_no_gt ('<' :: cs) hng]
      · have hscan : normScan none (c :: cs) = c :: normScan none cs := by
          simp [normScan, hc]
        rw [hscan, show normScan none (c :: normScan none cs)
              = c :: normScan none (normScan none cs) from by simp [normScan, hc]]
        rw [ih cs (by simp only [List.length_cons] at hl; omega)]

theorem normScan_idem (l : List Char) : normScan none (normScan none l) = normScan none l :=
  normScan_none_idem_aux l.length l (le_refl _)

theorem dropWhile_head_not (p : Char → Bool) : ∀ (l : List Char) (c : Char),
    (l.dropWhile p).head? = some c → p c = false
  | [], c, h => by simp [List.dropWhile] at h
  | a :: l, c, h => by
    by_cases hp : p a
    · rw [List.dropWhile_cons, if_pos hp] at h
      exact dropWhile_head_not p l c h
    · rw [List.dropWhile_cons, if_neg hp] at h
      simp only [List.head?_cons, Option.some.injEq] at h
      subst h
      exact Bool.eq_false_iff.mpr hp

theorem dropWhile_eq_self (p : Char → Bool) (l : List Char)
    (h : ∀ c, l.head? = some c → p c = false) : l.dropWhile p = l := by
  cases l with
  | nil => rfl
  | cons a l =>
    rw [List.dropWhile_cons, if_neg]
    simp [h a rfl]

theorem pyStrip_head? (l : List Char) (c : Char)
    (h : (pyStrip l).head? = some c) : isPySpace c = false := by
  unfold pyStrip at h
  rw [head?_reverse'] at h
  set d := l.dropWhile isPySpace with hd
  set r := d.reverse.dropWhile isPySpace with hr
  rcases Classical.em (r = []) with hrn | hrn
  · rw [hrn] at h; simp at h
  · have hsplit : d.reverse.takeWhile isPySpace ++ r = d.reverse := by
      rw [hr]; exact List.takeWhile_append_dropWhile isPySpace d.reverse
    have h2 : r.getLast? = d.reverse.getLast? := by
      rw [← hsplit, List.getLast?_append_of_ne_nil _ hrn]
    rw [h2, getLast?_reverse'] at h
    exact dropWhile_head_not isPySpace l c h

theorem pyStrip_getLast? (l : List Char) (c : Char)
    (h : (pyStrip l).getLast? = some c) : isPySpace c = false := by
  unfold pyStrip at h
  rw [getLast?_reverse'] at h
  exact dropWhile_head_not isPySpace _ c h

theorem pyStrip_eq_self (l : List Char)
    (h1 : ∀ c, l.head? = some c → isPySpace c = false)
    (h2 : ∀ c, l.getLast? = some c → isPySpace c = false) : pyStrip l = l := by
  unfold pyStrip
  rw [dropWhile_eq_self isPySpace l h1,
      dropWhile_eq_self isPySpace l.reverse (fun c hc => h2 c (by rwa [head?_reverse'] at hc)),
      List.reverse_reverse]

theorem pyStrip_normScan_fix (l : List Char) :
    pyStrip (normScan none (pyStrip l)) = normScan none (pyStrip l) := by
  apply pyStrip_eq_self
  · intro c hc
    rw [normScan_none_head?] at hc
    exact pyStrip_head? l c hc
  · intro c hc
    rcases normScan_none_getLast? (pyStrip l).length (pyStrip l) (le_refl _) with h | h
    · rw [h] at hc
      exact pyStrip_getLast? l c hc
    · rw [h] at hc
      cases hc
      decide

theorem hasPlaceholder_cons {c : Char} {cs : List Char}
    (h : HasPlaceholder cs) : HasPlaceholder (c :: cs) := by
  obtain ⟨p, m, q, heq, hm, hgt⟩ := h
  exact ⟨c :: p, m, q, by simp [heq], hm, hgt⟩

theorem not_hasPlaceholder_of_no_lt {l : List Char} (h : '<' ∉ l) :
    ¬ HasPlaceholder l := by
  rintro ⟨p, m, q, heq, -, -⟩
  apply h
  rw [heq]
  simp

theorem normScan_no_match_aux : ∀ (n : Nat) (l : List Char), l.length ≤ n →
    ¬ HasPlaceholder l → normScan none l = l := by
  intro n
  induction n with
  | zero =>
    intro l hl _
    have hnil : l = [] := List.length_eq_zero.mp (Nat.le_zero.mp hl)
    subst hnil; rfl
  | succ n ih =>
    intro l hl hnp
    match l with
    | [] => rfl
    | c :: cs =>
      by_cases hc : c = '<'
      · subst hc
        by_cases hgt : '>' ∈ cs
        · obtain ⟨mid, rest, heq, hmid⟩ := exists_first_gt cs hgt
          subst heq
          by_cases hm : mid = []
          · subst hm
            have hlen : rest.length ≤ n := by
              simp only [List.length_cons, List.length_append] at hl ⊢
              omega
            have hnp2 : ¬ HasPlaceholder rest := fun h =>
              hnp (hasPlaceholder_cons (hasPlaceholder_cons h))
            rw [normScan_cons_lt,
                show ([] : List Char) ++ '>' :: rest = '>' :: rest from rfl,
                show ('>' : Char) :: rest = ([] : List Char) ++ '>' :: rest from rfl,
                normScan_some_gt [] [] rest (by simp),
                ih rest hlen hnp2]
            rfl
          · exact absurd ⟨[], mid, rest, rfl, hm, hmid⟩ hnp
        · exact normScan_none_no_gt ('<' :: cs) (by
            intro hin
            rcases List.mem_cons.mp hin with h1 | h1
            · exact absurd h1 (by decide)
            · exact hgt h1)
      · have hnp2 : ¬ HasPlaceholder cs := fun h => hnp (hasPlaceholder_cons h)
        rw [show normScan none (c :: cs) = c :: normScan none cs from by simp [normScan, hc],
            ih cs (by simp only [List.length_cons] at hl; omega) hnp2]

theorem normScan_no_match (l : List Char) (h : ¬ HasPlaceholder l) :
    normScan none l = l :=
  normScan_no_match_aux l.length l (le_refl _) h

theorem normScan_match : ∀ (pre : List Char), '<' ∉ pre →
    ∀ (mid post : List Char), mid ≠ [] → '>' ∉ mid →
    normScan none (pre ++ '<' :: (mid ++ '>' :: post)) =
      pre ++ '<' :: '*' :: '>' :: normScan none post
  | [], _, mid, post, hm, hgt => by
    rw [List.nil_append, normScan_cons_lt, normScan_some_gt mid [] post hgt,
        if_neg (by simpa using hm)]
    rfl
  | a :: pre, h, mid, post, hm, hgt => by
    have ha : ¬ a = '<' := fun hh => h (hh ▸ List.mem_cons_self a pre)
    have hpre : '<' ∉ pre := fun hh => h (List.mem_cons_of_mem a hh)
    rw [List.cons_append,
        show normScan none (a :: (pre ++ '<' :: (mid ++ '>' :: post)))
          = a :: normScan none (pre ++ '<' :: (mid ++ '>' :: post)) from by
            simp [normScan, ha],
        normScan_match pre hpre mid post hm hgt]
    rfl

/-! Claim theorems. -/

/-- C7: `normalize_template` first trims leading/trailing whitespace and then
replaces every non-overlapping, left-to-right substring consisting of `<`, one
or more non-`>` characters, and the first following `>` with the literal token
`<*>`; a string containing no such placeholder substring is returned unchanged
apart from the trimming. -/
theorem c7_normalize_spec (s : String) (pre mid post : List Char) :
    normalize_template s = (normScan none (pyStrip s.data)).asString
    ∧ ('<' ∉ pre → mid ≠ [] → '>' ∉ mid →
        normScan none (pre ++ '<' :: (mid ++ '>' :: post)) =
          pre ++ '<' :: '*' :: '>' :: normScan none post)
    ∧ (¬ HasPlaceholder (pyStrip s.data) →
        normalize_template s = (pyStrip s.data).asString) := by
  refine ⟨rfl, fun h1 h2 h3 => normScan_match pre h1 mid post h2 h3, fun hnp => ?_⟩
  show (normScan none (pyStrip s.data)).asString = _
  rw [normScan_no_match _ hnp]

/-- Witness for C7 at concrete inputs. -/
theorem c7_witness :
    normScan none (['a'] ++ '<' :: (['b'] ++ '>' :: ['c']))
        = ['a'] ++ '<' :: '*' :: '>' :: normScan none ['c']
    ∧ normalize_template " abc " = (pyStrip " abc ".data).asString :=
  ⟨(c7_normalize_spec " abc " ['a'] ['b'] ['c']).2.1 (by decide) (by decide) (by decide),
   (c7_normalize_spec " abc " ['a'] ['b'] ['c']).2.2
     (not_hasPlaceholder_of_no_lt (by decide))⟩

/-- C8: `normalize_template` is idempotent. -/
theorem c8_normalize_idempotent (s : String) :
    normalize_template (normalize_template s) = normalize_template s := by
  have hdata : (normalize_template s).data = normScan none (pyStrip s.data) := rfl
  show (normScan none (pyStrip (normalize_template s).data)).asString = _
  rw [hdata, pyStrip_normScan_fix, normScan_idem]
  rfl

/-- C1: on any raw response whose JSON decoding fails, both extractors return
(never raise) the sentinel record with template `"<PARSE_ERROR>"`, empty
variables and the decode failure's description in the error field. -/
theorem c1_parse_error_sentinel
    (json_loads : String → Except String Json) (raw log fse e : String)
    (h : json_loads (pyStripStr raw) = Except.error e) :
    extract_template_and_variables (fun _ => Except.ok raw) json_loads log
      = Except.ok (parse_error_record e)
    ∧ extract_template_and_variables_fewshot (fun _ => Except.ok raw) json_loads log fse
      = Except.ok (parse_error_record e) := by
  constructor
  · simp [extract_template_and_variables, h]
  · simp [extract_template_and_variables_fewshot, h]

/-- Witness for C1 at a concrete malformed response. -/
theorem c1_witness :
    extract_template_and_variables (fun _ => Except.ok "garbage")
        (fun _ => Except.error "Expecting value: line 1 column 1 (char 0)") "log"
      = Except.ok (parse_error_record "Expecting value: line 1 column 1 (char 0)")
    ∧ extract_template_and_variables_fewshot (fun _ => Except.ok "garbage")
        (fun _ => Except.error "Expecting value: line 1 column 1 (char 0)") "log" "examples"
      = Except.ok (parse_error_record "Expecting value: line 1 column 1 (char 0)") :=
  c1_parse_error_sentinel (fun _ => Except.error "Expecting value: line 1 column 1 (char 0)")
    "garbage" "log" "examples" "Expecting value: line 1 column 1 (char 0)" rfl

/-- C6: a response decoding to an object with exactly the fields `template`
and `variables` round-trips — the returned record carries the same `template`
and `variables` and no error field. -/
theorem c6_round_trip
    (json_loads : String → Except String Json) (raw log : String) (T V : Json)
    (h : json_loads (pyStripStr raw)
        = Except.ok (Json.obj [("template", T), ("variables", V)])) :
    extract_template_and_variables (fun _ => Except.ok raw) json_loads log
      = Except.ok (Json.obj [("template", T), ("variables", V)])
    ∧ py_getitem (Json.obj [("template", T), ("variables", V)]) "template" = Except.ok T
    ∧ py_getitem (Json.obj [("template", T), ("variables", V)]) "variables" = Except.ok V
    ∧ py_contains (Json.obj [("template", T), ("variables", V)]) "error" = Except.ok false := by
  refine ⟨by simp [extract_template_and_variables, h], rfl, rfl, rfl⟩

/-- Witness for C6 at a concrete well-formed response. -/
theorem c6_witness :
    extract_template_and_variables (fun _ => Except.ok "wf")
        (fun _ => Except.ok (Json.obj [("template", Json.str "T <X>"),
          ("variables", Json.obj [("X", Json.str "v")])])) "log"
      = Except.ok (Json.obj [("template", Json.str "T <X>"),
          ("variables", Json.obj [("X", Json.str "v")])])
    ∧ py_getitem (Json.obj [("template", Json.str "T <X>"),
          ("variables", Json.obj [("X", Json.str "v")])]) "template"
        = Except.ok (Json.str "T <X>")
    ∧ py_getitem (Json.obj [("template", Json.str "T <X>"),
          ("variables", Json.obj [("X", Json.str "v")])]) "variables"
        = Except.ok (Json.obj [("X", Json.str "v")])
    ∧ py_contains (Json.obj [("template", Json.str "T <X>"),
          ("variables", Json.obj [("X", Json.str "v")])]) "error" = Except.ok false :=
  c6_round_trip _ "wf" "log" (Json.str "T <X>") (Json.obj [("X", Json.str "v")]) rfl

/-- C5 counterexample: on a successfully decoded object the extractor returns
the decoded value unchanged — an unknown field (`"unknown"`) is kept rather
than ignored, and a missing `variables` field is not defaulted to an empty
mapping, contradicting the claim. -/
theorem c5_counterexample :
    extract_template_and_variables (fun _ => Except.ok "resp")
        (fun _ => Except.ok (Json.obj [("template", Json.str "t"), ("unknown", Json.num 1)]))
        "log"
      = Except.ok (Json.obj [("template", Json.str "t"), ("unknown", Json.num 1)])
    ∧ py_contains (Json.obj [("template", Json.str "t"), ("unknown", Json.num 1)]) "unknown"
        = Except.ok true
    ∧ py_contains (Json.obj [("template", Json.str "t"), ("unknown", Json.num 1)]) "variables"
        = Except.ok false := ⟨rfl, rfl, rfl⟩

/-- C5 amended: on every raw response that decodes successfully, both
extractors return the decoded value entirely unchanged — all decoded fields,
known or unknown, are passed through, and a missing `variables` field stays
missing. -/
theorem c5_amended
    (completion : String → Except String String)
    (json_loads : String → Except String Json) (log fse raw : String) (v : Json)
    (hz : completion (zero_shot_prompt log) = Except.ok raw)
    (hf : completion (few_shot_prompt log fse) = Except.ok raw)
    (hd : json_loads (pyStripStr raw) = Except.ok v) :
    extract_template_and_variables completion json_loads log = Except.ok v
    ∧ extract_template_and_variables_fewshot completion json_loads log fse = Except.ok v := by
  constructor
  · simp [extract_template_and_variables, hz, hd]
  · simp [extract_template_and_variables_fewshot, hf, hd]

/-- Witness for the amended C5 at a concrete decoded object. -/
theorem c5_witness :
    extract_template_and_variables (fun _ => Except.ok "resp") (fun _ => Except.ok Json.null) "log"
      = Except.ok Json.null
    ∧ extract_template_and_variables_fewshot (fun _ => Except.ok "resp")
        (fun _ => Except.ok Json.null) "log" "examples"
      = Except.ok Json.null :=
  c5_amended (fun _ => Except.ok "resp") (fun _ => Except.ok Json.null)
    "log" "examples" "resp" Json.null rfl rfl rfl

/-- C3 counterexample: a failure of the external completion call is not
converted into the sentinel record — the call sits outside the `try`/`except`,
so the exception propagates out of both extractors. -/
theorem c3_counterexample :
    extract_template_and_variables (fun _ => Except.error "APITimeoutError: Request timed out")
        (fun _ => Except.ok Json.null) "log"
      = Except.error "APITimeoutError: Request timed out"
    ∧ extract_template_and_variables_fewshot
        (fun _ => Except.error "RateLimitError: quota exceeded")
        (fun _ => Except.ok Json.null) "log" "examples"
      = Except.error "RateLimitError: quota exceeded" := ⟨rfl, rfl⟩

/-- C3 amended: only JSON decode failures are converted into the sentinel
record; every failure of the external completion call propagates out of the
extractor unchanged (extraction raises). -/
theorem c3_amended
    (completion : String → Except String String)
    (json_loads : String → Except String Json) (log fse e : String)
    (hz : completion (zero_shot_prompt log) = Except.error e)
    (hf : completion (few_shot_prompt log fse) = Except.error e) :
    extract_template_and_variables completion json_loads log = Except.error e
    ∧ extract_template_and_variables_fewshot completion json_loads log fse = Except.error e := by
  constructor
  · simp [extract_template_and_variables, hz]
  · simp [extract_template_and_variables_fewshot, hf]

/-- Witness for the amended C3 at a concrete failing completion call. -/
theorem c3_witness :
    extract_template_and_variables (fun _ => Except.error "boom")
        (fun _ => Except.ok Json.null) "log" = Except.error "boom"
    ∧ extract_template_and_variables_fewshot (fun _ => Except.error "boom")
        (fun _ => Except.ok Json.null) "log" "examples" = Except.error "boom" :=
  c3_amended (fun _ => Except.error "boom") (fun _ => Except.ok Json.null)
    "log" "examples" "boom" rfl rfl

/-- C10: given an identical raw text response from the completion service, the
zero-shot and few-shot extractors produce identical result records; on a
successful decode both return the decoded value unchanged, and on a decode
failure both return the identical sentinel record. -/
theorem c10_extractor_equiv
    (raw : String) (json_loads : String → Except String Json) (log fse : String) :
    (extract_template_and_variables (fun _ => Except.ok raw) json_loads log
      = extract_template_and_variables_fewshot (fun _ => Except.ok raw) json_loads log fse)
    ∧ (∀ v, json_loads (pyStripStr raw) = Except.ok v →
        extract_template_and_variables (fun _ => Except.ok raw) json_loads log = Except.ok v
        ∧ extract_template_and_variables_fewshot (fun _ => Except.ok raw) json_loads log fse
            = Except.ok v)
    ∧ (∀ e, json_loads (pyStripStr raw) = Except.error e →
        extract_template_and_variables (fun _ => Except.ok raw) json_loads log
            = Except.ok (parse_error_record e)
        ∧ extract_template_and_variables_fewshot (fun _ => Except.ok raw) json_loads log fse
            = Except.ok (parse_error_record e)) := by
  refine ⟨?_,
    fun v hv => ⟨by simp [extract_template_and_variables, hv],
      by simp [extract_template_and_variables_fewshot, hv]⟩,
    fun e he => ⟨by simp [extract_template_and_variables, he],
      by simp [extract_template_and_variables_fewshot, he]⟩⟩
  cases h : json_loads (pyStripStr raw) with
  | ok v =>
      simp [extract_template_and_variables, extract_template_and_variables_fewshot, h]
  | error e =>
      simp [extract_template_and_variables, extract_template_and_variables_fewshot, h]

/-- Witness for C10: the two inner hypotheses discharged at a succeeding and
at a failing concrete decoder. -/
theorem c10_witness :
    (extract_template_and_variables (fun _ => Except.ok "r") (fun _ => Except.ok Json.null) "log"
        = Except.ok Json.null
      ∧ extract_template_and_variables_fewshot (fun _ => Except.ok "r")
          (fun _ => Except.ok Json.null) "log" "examples" = Except.ok Json.null)
    ∧ (extract_template_and_variables (fun _ => Except.ok "r") (fun _ => Except.error "bad") "log"
        = Except.ok (parse_error_record "bad")
      ∧ extract_template_and_variables_fewshot (fun _ => Except.ok "r")
          (fun _ => Except.error "bad") "log" "examples"
        = Except.ok (parse_error_record "bad")) :=
  ⟨(c10_extractor_equiv "r" (fun _ => Except.ok Json.null) "log" "examples").2.1 Json.null rfl,
   (c10_extractor_equiv "r" (fun _ => Except.error "bad") "log" "examples").2.2 "bad" rfl⟩

theorem py_as_str_ok {j : Json} {s : String} (h : py_as_str j = Except.ok s) :
    j = Json.str s := by
  cases j <;> simp_all [py_as_str]

/-- C2 counterexample: a line whose response fails to decode yields the
parse-error sentinel — which carries an error field and whose template is the
non-empty string `"<PARSE_ERROR>"` only by convention — yet `main` still
computes an embedding for it, because its guard is only `"template" in
result`. -/
theorem c2_counterexample :
    process_log
      { completion := fun _ => Except.ok "not json",
        json_loads := fun _ => Except.error "Expecting value: line 1 column 1 (char 0)",
        embeddings_create := fun _ => Except.ok [[(1 : Int), 2, 3]] }
      "some log"
      = Except.ok (parse_error_record "Expecting value: line 1 column 1 (char 0)",
          some [(1 : Int), 2, 3])
    ∧ py_contains (parse_error_record "Expecting value: line 1 column 1 (char 0)") "error"
        = Except.ok true := ⟨rfl, rfl⟩

/-- C2 amended: for every log line whose iteration of `main`'s loop completes
without an exception, an embedding is attached if and only if the decoded
record contains a `"template"` key — regardless of whether a parse error is
recorded and of whether the template is empty; when attached, the embedding is
the one obtained for the normalized template string. -/
theorem c2_amended {α : Type} (o : Oracles α) (log : String) (rec : Json)
    (emb : Option (List α))
    (h : process_log o log = Except.ok (rec, emb)) :
    py_contains rec "template" = Except.ok emb.isSome
    ∧ (∀ v, emb = some v → ∃ ts,
        py_getitem rec "template" = Except.ok (Json.str ts)
        ∧ get_embedding o.embeddings_create (normalize_template ts) = Except.ok v) := by
  unfold process_log at h
  split at h
  next e hext => exact absurd h (by simp)
  next result hext =>
    split at h
    next e hcont => exact absurd h (by simp)
    next hasTemplate hcont =>
      split at h
      next hb =>
        split at h
        next e hget => exact absurd h (by simp)
        next tj hget =>
          split at h
          next e hstr => exact absurd h (by simp)
          next ts hstr =>
            split at h
            next e hemb => exact absurd h (by simp)
            next embedding hemb =>
              have hpair : result = rec ∧ some embedding = emb := by
                simpa only [Except.ok.injEq, Prod.mk.injEq] using h
              obtain ⟨hrec, hemb2⟩ := hpair
              subst hrec
              rw [← hemb2]
              refine ⟨by rw [hcont, hb]; rfl, fun v hv => ⟨ts, ?_, ?_⟩⟩
              · rw [hget, py_as_str_ok hstr]
              · cases hv
                exact hemb
      next hb =>
        have hpair : result = rec ∧ (none : Option (List α)) = emb := by
          simpa only [Except.ok.injEq, Prod.mk.injEq] using h
        obtain ⟨hrec, hemb2⟩ := hpair
        subst hrec
        rw [← hemb2]
        have hb' : hasTemplate = false := Bool.eq_false_iff.mpr hb
        refine ⟨by rw [hcont, hb']; rfl, fun v hv => absurd hv (by simp)⟩

/-- Witness for the amended C2 at a concrete successful iteration. -/
theorem c2_witness :
    py_contains (Json.obj [("template", Json.str "T")]) "template"
      = Except.ok (some [(7 : Int)]).isSome
    ∧ (∀ v, (some [(7 : Int)]) = some v → ∃ ts,
        py_getitem (Json.obj [("template", Json.str "T")]) "template"
          = Except.ok (Json.str ts)
        ∧ get_embedding
            (Oracles.embeddings_create
              { completion := fun _ => Except.ok "resp",
                json_loads := fun _ => Except.ok (Json.obj [("template", Json.str "T")]),
                embeddings_create := fun _ => Except.ok [[(7 : Int)]] })
            (normalize_template ts) = Except.ok v) :=
  c2_amended
    { completion := fun _ => Except.ok "resp",
      json_loads := fun _ => Except.ok (Json.obj [("template", Json.str "T")]),
      embeddings_create := fun _ => Except.ok [[(7 : Int)]] }
    "log" (Json.obj [("template", Json.str "T")]) (some [(7 : Int)]) rfl

/-- C9: `get_embedding` calls the external embedding service with the
single-item batch `[text]` (its result depends only on the service's answer on
that batch) and returns the first resulting vector unmodified; a service error
or an empty vector list yields an error that propagates to the caller. -/
theorem c9_get_embedding {α : Type}
    (svc : List String → Except String (List (List α))) (text : String) :
    (∀ e, svc [text] = Except.error e → get_embedding svc text = Except.error e)
    ∧ (svc [text] = Except.ok [] →
        get_embedding svc text = Except.error "IndexError: list index out of range")
    ∧ (∀ v rest, svc [text] = Except.ok (v :: rest) → get_embedding svc text = Except.ok v)
    ∧ (∀ svc2 : List String → Except String (List (List α)),
        svc [text] = svc2 [text] → get_embedding svc text = get_embedding svc2 text) :=
  ⟨fun e he => by simp [get_embedding, he],
   fun h => by simp [get_embedding, h],
   fun v rest h => by simp [get_embedding, h],
   fun svc2 h => by unfold get_embedding; rw [h]⟩

/-- Witness for C9: all four hypotheses discharged at concrete services. -/
theorem c9_witness :
    get_embedding (fun _ => Except.ok [[(2 : Int)], [3]]) "text" = Except.ok [2]
    ∧ get_embedding (fun _ => Except.error "ConnectionError" :
        List String → Except String (List (List Int))) "text" = Except.error "ConnectionError"
    ∧ get_embedding (fun _ => Except.ok ([] : List (List Int))) "text"
        = Except.error "IndexError: list index out of range"
    ∧ get_embedding (fun _ => Except.ok [[(2 : Int)], [3]]) "text"
        = get_embedding (fun _ => Except.ok [[(2 : Int)], [3]]) "text" :=
  ⟨(c9_get_embedding (fun _ => Except.ok [[(2 : Int)], [3]]) "text").2.2.1 [2] [[3]] rfl,
   (c9_get_embedding (fun _ => Except.error "ConnectionError") "text").1 "ConnectionError" rfl,
   (c9_get_embedding (fun _ => Except.ok ([] : List (List Int))) "text").2.1 rfl,
   (c9_get_embedding (fun _ => Except.ok [[(2 : Int)], [3]]) "text").2.2.2
     (fun _ => Except.ok [[(2 : Int)], [3]]) rfl⟩

/-- C4 counterexample: with two log lines and an embedding service that fails,
`main`'s loop aborts on the first line — it produces zero results for two
inputs and never reaches the second line, instead of merely leaving the first
line's embedding absent. -/
theorem c4_counterexample :
    run_logs
      ({ completion := fun _ => Except.ok "x",
         json_loads := fun _ => Except.ok (Json.obj [("template", Json.str "T1")]),
         embeddings_create := fun _ => Except.error "EmbeddingServiceError: connection refused" }
        : Oracles Int)
      ["log one", "log two"]
      = ([], some "EmbeddingServiceError: connection refused") := rfl

/-- C4 amended: when every line's iteration completes without an exception,
the loop produces exactly N results in input order; but the first line whose
extraction or embedding raises aborts the loop — results are produced only
for the preceding lines, and in particular an embedding-service error aborts
the batch rather than merely leaving that line's embedding absent. -/
theorem c4_amended {α : Type} (o : Oracles α) (logs pre post : List String)
    (badLog e : String) :
    ((∀ l ∈ logs, (process_log o l).isOk = true) →
      (run_logs o logs).2 = none
      ∧ (run_logs o logs).1.map Except.ok = logs.map (process_log o))
    ∧ ((∀ l ∈ pre, (process_log o l).isOk = true) →
      process_log o badLog = Except.error e →
      (run_logs o (pre ++ badLog :: post)).2 = some e
      ∧ (run_logs o (pre ++ badLog :: post)).1.map Except.ok = pre.map (process_log o)) := by
  constructor
  · induction logs with
    | nil => exact fun _ => ⟨rfl, rfl⟩
    | cons l ls ih =>
      intro hok
      have h1 : (process_log o l).isOk = true := hok l (List.mem_cons_self l ls)
      obtain ⟨r, hr⟩ : ∃ r, process_log o l = Except.ok r := by
        cases hp : process_log o l with
        | error e2 => rw [hp] at h1; exact absurd h1 (by simp [Except.isOk, Except.toBool])
        | ok r => exact ⟨r, rfl⟩
      obtain ⟨h2a, h2b⟩ := ih (fun x hx => hok x (List.mem_cons_of_mem l hx))
      have hrun : run_logs o (l :: ls)
          = (r :: (run_logs o ls).1, (run_logs o ls).2) := by
        simp only [run_logs, hr]
      rw [hrun]
      exact ⟨h2a, by simp only [List.map_cons, h2b, hr]⟩
  · induction pre with
    | nil =>
      intro _ hbad
      have hrun : run_logs o ([] ++ badLog :: post) = ([], some e) := by
        rw [List.nil_append]
        simp only [run_logs, hbad]
      rw [hrun]
      exact ⟨rfl, rfl⟩
    | cons l ls ih =>
      intro hok hbad
      have h1 : (process_log o l).isOk = true := hok l (List.mem_cons_self l ls)
      obtain ⟨r, hr⟩ : ∃ r, process_log o l = Except.ok r := by
        cases hp : process_log o l with
        | error e2 => rw [hp] at h1; exact absurd h1 (by simp [Except.isOk, Except.toBool])
        | ok r => exact ⟨r, rfl⟩
      obtain ⟨h2a, h2b⟩ := ih (fun x hx => hok x (List.mem_cons_of_mem l hx)) hbad
      have hrun : run_logs o ((l :: ls) ++ badLog :: post)
          = (r :: (run_logs o (ls ++ badLog :: post)).1,
             (run_logs o (ls ++ badLog :: post)).2) := by
        rw [List.cons_append]
        simp only [run_logs, hr]
      rw [hrun]
      exact ⟨h2a, by simp only [List.map_cons, h2b, hr]⟩

set_option maxRecDepth 100000 in
/-- Witness for the amended C4: a two-line batch that completes with two
in-order results, and a three-line batch whose second line's completion call
raises, aborting the loop after the first line's result. -/
theorem c4_witness :
    ((run_logs
        ({ completion := fun _ => Except.ok "x",
           json_loads := fun _ => Except.ok (Json.obj [("template", Json.str "T")]),
           embeddings_create := fun _ => Except.ok [[(5 : Int)]] } : Oracles Int)
        ["a", "b"]).2 = none
      ∧ (run_logs
          ({ completion := fun _ => Except.ok "x",
             json_loads := fun _ => Except.ok (Json.obj [("template", Json.str "T")]),
             embeddings_create := fun _ => Except.ok [[(5 : Int)]] } : Oracles Int)
          ["a", "b"]).1.map Except.ok
        = ["a", "b"].map (process_log
            ({ completion := fun _ => Except.ok "x",
               json_loads := fun _ => Except.ok (Json.obj [("template", Json.str "T")]),
               embeddings_create := fun _ => Except.ok [[(5 : Int)]] } : Oracles Int)))
    ∧ ((run_logs
          ({ completion := fun p =>
               if p = few_shot_prompt "BAD" FEW_SHOT_EXAMPLES then
                 Except.error "CompletionServiceError" else Except.ok "x",
             json_loads := fun _ => Except.ok (Json.obj []),
             embeddings_create := fun _ => Except.ok [[(5 : Int)]] } : Oracles Int)
          (["good"] ++ "BAD" :: ["another"])).2 = some "CompletionServiceError"
      ∧ (run_logs
          ({ completion := fun p =>
               if p = few_shot_prompt "BAD" FEW_SHOT_EXAMPLES then
                 Except.error "CompletionServiceError" else Except.ok "x",
             json_loads := fun _ => Except.ok (Json.obj []),
             embeddings_create := fun _ => Except.ok [[(5 : Int)]] } : Oracles Int)
          (["good"] ++ "BAD" :: ["another"])).1.map Except.ok
        = ["good"].map (process_log
            ({ completion := fun p =>
                 if p = few_shot_prompt "BAD" FEW_SHOT_EXAMPLES then
                   Except.error "CompletionServiceError" else Except.ok "x",
               json_loads := fun _ => Except.ok (Json.obj []),
               embeddings_create := fun _ => Except.ok [[(5 : Int)]] } : Oracles Int))) :=
  ⟨(c4_amended
      ({ completion := fun _ => Except.ok "x",
         json_loads := fun _ => Except.ok (Json.obj [("template", Json.str "T")]),
         embeddings_create := fun _ => Except.ok [[(5 : Int)]] } : Oracles Int)
      ["a", "b"] [] [] "" "").1 (by decide),
   (c4_amended
      ({ completion := fun p =>
           if p = few_shot_prompt "BAD" FEW_SHOT_EXAMPLES then
             Except.error "CompletionServiceError" else Except.ok "x",
         json_loads := fun _ => Except.ok (Json.obj []),
         embeddings_create := fun _ => Except.ok [[(5 : Int)]] } : Oracles Int)
      [] ["good"] ["another"] "BAD" "CompletionServiceError").2 (by decide) rfl⟩
